import Mathlib

/-!
Verification development for the pushrod widget store and event-dispatch
loop.  The data model and operations are shallowly embedded from
`src/core/window.rs` (the widget store `PushrodWindow`) and
`src/core/main.rs` (the `Pushrod::run` loop).  Graphics resources
(the Piston window, texture buffer, framebuffer id) are external
collaborators out of scope and are not part of the state.

Coordinates: the geometry value types live in `core/point.rs`, which is
not part of the sources; the spec gives `Point` as a pair of floating
point coordinates and `Size` as a pair of machine integers.  We model
both coordinate types as unbounded integers: every comparison and sum
performed by the code (`>=`, `<=`, `+`) agrees with the exact f64/i32
semantics on the integer-valued inputs the claims use, and no rounding
or NaN behaviour is exercised by the store.
-/

/-- Modelled from the spec: `Point` from `core/point.rs` (not in the
sources).  A value type with two coordinates, compared structurally. -/
structure Point where
  x : Int
  y : Int
deriving DecidableEq, Repr

/-- Modelled from the spec: `Size` from `core/point.rs` (not in the
sources).  A width/height value pair. -/
structure Size where
  w : Int
  h : Int
deriving DecidableEq, Repr

/-- Modelled from the spec: `make_origin_point` from `core/point.rs`
(not in the sources), used by the run loop to initialise
`previous_mouse_position`. -/
def make_origin_point : Point := { x := 0, y := 0 }

/-- Modelled from the spec: the `Widget` capability of
`widget/widget.rs` (not in the sources).  The store only uses the
bounds (`get_origin`, `get_size`), the dirty flag (`invalidate`) and
the no-op input callbacks, so a widget is modelled by that observable
state alone. -/
structure Widget where
  origin : Point
  size : Size
  invalidated : Bool
deriving DecidableEq, Repr

/-- Modelled from the spec: `Widget::get_origin`. -/
def Widget.get_origin (w : Widget) : Point := w.origin

/-- Modelled from the spec: `Widget::get_size`. -/
def Widget.get_size (w : Widget) : Size := w.size

/-- Modelled from the spec: `Widget::set_size(w, h)` mutates the bounds. -/
def Widget.set_size (wdg : Widget) (w h : Int) : Widget :=
  { wdg with size := { w := w, h := h } }

/-- Modelled from the spec: `Widget::invalidate` marks the widget dirty
for the next draw pass. -/
def Widget.invalidate (w : Widget) : Widget :=
  { w with invalidated := true }

/-- Modelled from the spec: `BaseWidget::new` of `widget/widget.rs`
(not in the sources): a fresh base widget at the origin with no extent
and nothing pending to draw. -/
def BaseWidget.new : Widget :=
  { origin := { x := 0, y := 0 }, size := { w := 0, h := 0 }, invalidated := false }

/-- `WidgetContainer` from `core/window.rs`: one widget plus its
assigned id and its parent id. -/
structure WidgetContainer where
  widget : Widget
  widget_id : Int
  parent_id : Int
deriving DecidableEq, Repr

/-- `PushrodWindow` from `core/window.rs`, restricted to the widget
store.  The `PistonWindow`, texture buffer, texture and framebuffer id
fields are graphics collaborators outside the core. -/
structure PushrodWindow where
  widgets : List WidgetContainer
deriving DecidableEq, Repr

/-- `PushrodWindow::new` from `core/window.rs`: pushes a base widget
with `set_size(800, 600)` under `widget_id = 0`, `parent_id = 0`. -/
def PushrodWindow.new : PushrodWindow :=
  { widgets := [{ widget := Widget.set_size BaseWidget.new 800 600,
                  widget_id := 0,
                  parent_id := 0 }] }

/-- `PushrodWindow::invalidate_all_widgets` from `core/window.rs`:
calls `invalidate` on every stored widget. -/
def invalidate_all_widgets (s : PushrodWindow) : PushrodWindow :=
  { widgets := s.widgets.map fun c => { c with widget := Widget.invalidate c.widget } }

/-- `PushrodWindow::add_widget` from `core/window.rs`: reads the current
length, pushes a container with that id and `parent_id = 0`, and
returns the id. -/
def add_widget (s : PushrodWindow) (w : Widget) : Int × PushrodWindow :=
  let widget_size : Int := s.widgets.length
  (widget_size,
   { widgets := s.widgets ++ [{ widget := w, widget_id := widget_size, parent_id := 0 }] })

/-- `PushrodWindow::add_widget_to_parent` from `core/window.rs`: same as
`add_widget` but stores the supplied `parent_id` verbatim (the source
carries a TODO noting that `parent_id` is not validated). -/
def add_widget_to_parent (s : PushrodWindow) (w : Widget) (parent_id : Int) : Int × PushrodWindow :=
  let widget_size : Int := s.widgets.length
  (widget_size,
   { widgets := s.widgets ++ [{ widget := w, widget_id := widget_size, parent_id := parent_id }] })

/-- `PushrodWindow::get_parent_of` from `core/window.rs`: `0` for any
`widget_id <= 0`, otherwise the stored `parent_id` of the indexed
container.  The source indexes the vector directly and aborts when the
id is out of range; the abort is modelled as `none`. -/
def get_parent_of (s : PushrodWindow) (widget_id : Int) : Option Int :=
  if widget_id ≤ 0 then
    some 0
  else
    (s.widgets.get? widget_id.toNat).map fun c => c.parent_id

/-- `PushrodWindow::get_children_of` from `core/window.rs`: filter the
store on `parent_id`, keep each `widget_id`, in store order. -/
def get_children_of (s : PushrodWindow) (parent_id : Int) : List Int :=
  (s.widgets.filter fun c => decide (c.parent_id = parent_id)).map fun c => c.widget_id

/-- The hit condition of `get_widget_id_for_point` in `core/window.rs`:
both coordinates within the closed box spanned by the widget origin and
size. -/
def containsPoint (w : Widget) (p : Point) : Bool :=
  decide (p.x ≥ (Widget.get_origin w).x
    ∧ p.x ≤ (Widget.get_origin w).x + (Widget.get_size w).w
    ∧ p.y ≥ (Widget.get_origin w).y
    ∧ p.y ≤ (Widget.get_origin w).y + (Widget.get_size w).h)

/-- The loop body of `get_widget_id_for_point`: walk the containers with
their positions, overwriting `found_id` with the position of every
container that contains the point. -/
def hitScan (p : Point) : List WidgetContainer → Nat → Int → Int
  | [], _, found => found
  | c :: rest, pos, found =>
      hitScan p rest (pos + 1) (if containsPoint c.widget p then (pos : Int) else found)

/-- `PushrodWindow::get_widget_id_for_point` from `core/window.rs`:
scan all containers from `found_id = -1`. -/
def get_widget_id_for_point (s : PushrodWindow) (p : Point) : Int :=
  hitScan p s.widgets 0 (-1)

/-- Whether the container at index `i` (when present) contains `p`. -/
def matchesAt (s : PushrodWindow) (p : Point) (i : Nat) : Bool :=
  match s.widgets.get? i with
  | some c => containsPoint c.widget p
  | none => false

/-- Spec-side reading of the hit test, below a bound: the greatest
matching index strictly below `n`, and `-1` when none matches. -/
def lastMatchBelow (s : PushrodWindow) (p : Point) : Nat → Int
  | 0 => -1
  | n + 1 => if matchesAt s p n then (n : Int) else lastMatchBelow s p n

/-- Spec-side reading of the hit test: the index of the last matching
container, `-1` when no container matches. -/
def lastMatchingIndex (s : PushrodWindow) (p : Point) : Int :=
  lastMatchBelow s p s.widgets.length

/-- First widget of the scenario store: a widget away from the tested
points, occupying the box from (200, 0) to (250, 50). -/
def c4_w1 : Widget :=
  { origin := { x := 200, y := 0 }, size := { w := 50, h := 50 }, invalidated := false }

/-- Second widget of the scenario store: covers the box from (0, 0)
to (100, 100); it receives id 2. -/
def c4_w2 : Widget :=
  { origin := { x := 0, y := 0 }, size := { w := 100, h := 100 }, invalidated := false }

/-- Scenario store: the constructor store (base widget of size
800 by 600 at id 0) plus `c4_w1` at id 1 and `c4_w2` at id 2. -/
def c4_store : PushrodWindow :=
  (add_widget (add_widget PushrodWindow.new c4_w1).2 c4_w2).2

/-- One per-id dispatch performed by the store on behalf of the run
loop: the observable record of a `mouse_moved_for_id`,
`mouse_exited_for_id`, `mouse_entered_for_id` or `mouse_scrolled_for_id`
invocation. -/
inductive Callback where
  | mouseMoved (id : Int) (p : Point)
  | mouseExited (id : Int)
  | mouseEntered (id : Int)
  | mouseScrolled (id : Int) (p : Point)
deriving DecidableEq, Repr

/-- Modelled from the spec: `WidgetStore::mouse_moved_for_id` (the file
`core/widget_store.rs` is not in the sources) forwards the move to the
identified widget, whose base callback is a no-op; the dispatch itself
is the observable. -/
def mouse_moved_for_id (s : PushrodWindow) (id : Int) (p : Point) :
    PushrodWindow × List Callback :=
  (s, [Callback.mouseMoved id p])

/-- `PushrodWindow::mouse_exited_for_id` from `core/window.rs`: forwards
to the widget callback (a no-op in the base implementation); the
dispatch is recorded. -/
def mouse_exited_for_id (s : PushrodWindow) (id : Int) :
    PushrodWindow × List Callback :=
  (s, [Callback.mouseExited id])

/-- `PushrodWindow::mouse_entered_for_id` from `core/window.rs`. -/
def mouse_entered_for_id (s : PushrodWindow) (id : Int) :
    PushrodWindow × List Callback :=
  (s, [Callback.mouseEntered id])

/-- `PushrodWindow::mouse_scrolled_for_id` from `core/window.rs`. -/
def mouse_scrolled_for_id (s : PushrodWindow) (id : Int) (p : Point) :
    PushrodWindow × List Callback :=
  (s, [Callback.mouseScrolled id p])

/-- Modelled from the spec: the draw pass (`widget_store.rs` is not in
the sources) renders every widget from the given root; each widget is
expected to clear its own dirty flag after drawing. -/
def draw_pass (s : PushrodWindow) : PushrodWindow :=
  { widgets := s.widgets.map fun c =>
      { c with widget := { c.widget with invalidated := false } } }

/-- The mutable state of `Pushrod::run` from `core/main.rs`: the widget
store plus the two locals of the loop, `last_widget_id` (initialised to
-1) and `previous_mouse_position` (initialised to the origin point). -/
structure LoopState where
  store : PushrodWindow
  last_widget_id : Int
  previous_mouse_position : Point
deriving DecidableEq, Repr

/-- The initial loop state of `Pushrod::run` over a given store. -/
def LoopState.initial (s : PushrodWindow) : LoopState :=
  { store := s, last_widget_id := -1, previous_mouse_position := make_origin_point }

/-- One raw platform event, as observed by the run loop of
`core/main.rs` through the `mouse_cursor`, `mouse_scroll`, `resize` and
`render` accessors: each component is present or absent independently,
and the loop body inspects them in this fixed order. -/
structure Event where
  mouse_cursor : Option Point
  mouse_scroll : Option Point
  resize : Option (Nat × Nat)
  render : Bool
deriving DecidableEq, Repr

/-- The `event.mouse_cursor` closure of `Pushrod::run`: guarded by
strict inequality against `previous_mouse_position`; updates the
previous position, hit-tests the point, dispatches `mouse_moved_for_id`
for a non-sentinel hit, and on an id transition dispatches
`mouse_exited_for_id` for the old id (when not -1), stores the new id,
and dispatches `mouse_entered_for_id` for it (when not -1).  The
`get_parent_of` lookup of the source is diagnostic logging only and
touches nothing. -/
def processMouseCursor (st : LoopState) (mouse_point : Point) :
    LoopState × List Callback :=
  if mouse_point.x ≠ st.previous_mouse_position.x
      ∨ mouse_point.y ≠ st.previous_mouse_position.y then
    let st1 : LoopState := { st with previous_mouse_position := mouse_point }
    let current_widget_id := get_widget_id_for_point st1.store mouse_point
    let movedTrace :=
      if current_widget_id ≠ -1 then
        (mouse_moved_for_id st1.store current_widget_id mouse_point).2
      else []
    if current_widget_id ≠ st1.last_widget_id then
      let exitedTrace :=
        if st1.last_widget_id ≠ -1 then
          (mouse_exited_for_id st1.store st1.last_widget_id).2
        else []
      let st2 : LoopState := { st1 with last_widget_id := current_widget_id }
      let enteredTrace :=
        if st2.last_widget_id ≠ -1 then
          (mouse_entered_for_id st2.store st2.last_widget_id).2
        else []
      (st2, movedTrace ++ exitedTrace ++ enteredTrace)
    else
      (st1, movedTrace)
  else
    (st, [])

/-- The `event.mouse_scroll` closure of `Pushrod::run`: dispatch
`mouse_scrolled_for_id` to `last_widget_id` exactly when it is not the
sentinel -1; no hit test is performed. -/
def processMouseScroll (st : LoopState) (mouse_point : Point) :
    LoopState × List Callback :=
  if st.last_widget_id ≠ -1 then
    (st, (mouse_scrolled_for_id st.store st.last_widget_id mouse_point).2)
  else
    (st, [])

/-- Cursor phase of one loop iteration. -/
def tickCursor (st : LoopState) (e : Event) : LoopState × List Callback :=
  match e.mouse_cursor with
  | some p => processMouseCursor st p
  | none => (st, [])

/-- Scroll phase of one loop iteration. -/
def tickScroll (st : LoopState) (e : Event) : LoopState × List Callback :=
  match e.mouse_scroll with
  | some p => processMouseScroll st p
  | none => (st, [])

/-- Resize phase of one loop iteration: `invalidate_all_widgets`,
unconditionally, whenever a resize event is present. -/
def tickResize (st : LoopState) (e : Event) : LoopState :=
  if e.resize.isSome then { st with store := invalidate_all_widgets st.store }
  else st

/-- The store as handed to the draw pass of the render phase: the state
left by the cursor, scroll and resize phases of the same iteration. -/
def storeAtDraw (st : LoopState) (e : Event) : PushrodWindow :=
  (tickResize (tickScroll (tickCursor st e).1 e).1 e).store

/-- Render phase of one loop iteration: run the draw pass, then
`invalidate_all_widgets` again, unconditionally. -/
def tickRender (st : LoopState) (e : Event) : LoopState :=
  if e.render then
    { st with store := invalidate_all_widgets (draw_pass st.store) }
  else st

/-- One full iteration of the `while let Some(ref event)` body of
`Pushrod::run`: cursor, scroll, resize, render, in source order,
returning the final state and the per-id dispatch trace. -/
def tick (st : LoopState) (e : Event) : LoopState × List Callback :=
  let c := tickCursor st e
  let s := tickScroll c.1 e
  let r := tickResize s.1 e
  let d := tickRender r e
  (d, c.2 ++ s.2)

/-- Recogniser for moved dispatches. -/
def isMoved : Callback → Bool
  | Callback.mouseMoved _ _ => true
  | _ => false

/-- Recogniser for entered dispatches. -/
def isEntered : Callback → Bool
  | Callback.mouseEntered _ => true
  | _ => false

/-- Recogniser for exited dispatches. -/
def isExited : Callback → Bool
  | Callback.mouseExited _ => true
  | _ => false

/-- Recogniser for enter or exit dispatches. -/
def isEnterExit (c : Callback) : Bool := isExited c || isEntered c

/-- State used to witness C3: the pointer was last over widget 2. -/
def c3_state : LoopState :=
  { store := c4_store, last_widget_id := 2,
    previous_mouse_position := { x := 50, y := 50 } }

/-- Event used to witness C3: a scroll with no cursor move. -/
def c3_event : Event :=
  { mouse_cursor := none, mouse_scroll := some { x := 1, y := 1 },
    resize := none, render := false }

/-- Initial loop state over the scenario store, as set up at the top of
`Pushrod::run`. -/
def c4_state0 : LoopState := LoopState.initial c4_store

/-- Cursor move to (50, 50). -/
def c4_move1 : Event :=
  { mouse_cursor := some { x := 50, y := 50 }, mouse_scroll := none,
    resize := none, render := false }

/-- Cursor move to (500, 500). -/
def c4_move2 : Event :=
  { mouse_cursor := some { x := 500, y := 500 }, mouse_scroll := none,
    resize := none, render := false }

/-- Scroll event following the two moves. -/
def c4_scroll : Event :=
  { mouse_cursor := none, mouse_scroll := some { x := 3, y := 7 },
    resize := none, render := false }

/-- Loop state after the move to (50, 50). -/
def c4_state1 : LoopState := (tick c4_state0 c4_move1).1

/-- Loop state after the subsequent move to (500, 500). -/
def c4_state2 : LoopState := (tick c4_state1 c4_move2).1

/-- Store used to witness C7: ids 0 to 7, where ids 5 and 7 were added
with `add_widget_to_parent(_, 3)`. -/
def c7_store : PushrodWindow :=
  (add_widget_to_parent
    (add_widget
      (add_widget_to_parent
        (add_widget
          (add_widget
            (add_widget
              (add_widget PushrodWindow.new BaseWidget.new).2
              BaseWidget.new).2
            BaseWidget.new).2
          BaseWidget.new).2
        BaseWidget.new 3).2
      BaseWidget.new).2
    BaseWidget.new 3).2

/-- Event used to witness C8: a bare resize. -/
def c8_resize_event : Event :=
  { mouse_cursor := none, mouse_scroll := none, resize := some (640, 480),
    render := false }

/-- Event used to witness C8: a bare render tick. -/
def c8_render_event : Event :=
  { mouse_cursor := none, mouse_scroll := none, resize := none, render := true }

/-- The store states reachable through the constructor and the two
insertion operations, the only ways widgets enter the store. -/
inductive Reachable : PushrodWindow → Prop where
  | base : Reachable PushrodWindow.new
  | add (s : PushrodWindow) (w : Widget) :
      Reachable s → Reachable (add_widget s w).2
  | addToParent (s : PushrodWindow) (w : Widget) (pid : Int) :
      Reachable s → Reachable (add_widget_to_parent s w pid).2

lemma hitScan_append (p : Point) (l₁ l₂ : List WidgetContainer) :
    ∀ (pos : Nat) (found : Int),
      hitScan p (l₁ ++ l₂) pos found = hitScan p l₂ (pos + l₁.length) (hitScan p l₁ pos found) := by
  induction l₁ with
  | nil => intro pos found; simp [hitScan]
  | cons c rest ih =>
      intro pos found
      have h1 : hitScan p ((c :: rest) ++ l₂) pos found
          = hitScan p (rest ++ l₂) (pos + 1)
              (if containsPoint c.widget p then (pos : Int) else found) := rfl
      have h2 : hitScan p (c :: rest) pos found
          = hitScan p rest (pos + 1)
              (if containsPoint c.widget p then (pos : Int) else found) := rfl
      have h3 : pos + (c :: rest).length = pos + 1 + rest.length := by
        simp [List.length_cons]; omega
      rw [h1, ih, h2, h3]

lemma hitScan_take_eq_lastMatchBelow (s : PushrodWindow) (p : Point) :
    ∀ n, n ≤ s.widgets.length →
      hitScan p (s.widgets.take n) 0 (-1) = lastMatchBelow s p n := by
  intro n
  induction n with
  | zero => intro _; simp [hitScan, lastMatchBelow]
  | succ m ih =>
      intro hle
      have hm : m < s.widgets.length := Nat.lt_of_succ_le hle
      have hc : s.widgets.get? m = some (s.widgets.get ⟨m, hm⟩) := List.get?_eq_get hm
      have htake : s.widgets.take (m + 1) = s.widgets.take m ++ [s.widgets.get ⟨m, hm⟩] := by
        rw [List.take_succ, List.getElem?_eq_getElem hm]; rfl
      have hlen : (s.widgets.take m).length = m := by
        simp [List.length_take, Nat.le_of_lt hm]
      rw [htake, hitScan_append, hlen, ih (Nat.le_of_lt hm)]
      simp only [hitScan, lastMatchBelow, matchesAt, hc]
      rcases h : containsPoint (s.widgets.get ⟨m, hm⟩).widget p <;> simp [h]

lemma get_widget_id_for_point_eq_lastMatchingIndex (s : PushrodWindow) (p : Point) :
    get_widget_id_for_point s p = lastMatchingIndex s p := by
  have := hitScan_take_eq_lastMatchBelow s p s.widgets.length (Nat.le_refl _)
  rwa [List.take_length] at this

lemma matchesAt_of_le_length (s : PushrodWindow) (p : Point) (i : Nat)
    (h : s.widgets.length ≤ i) : matchesAt s p i = false := by
  unfold matchesAt
  rw [List.get?_eq_none.mpr h]

lemma lastMatchBelow_of_none (s : PushrodWindow) (p : Point) :
    ∀ n, (∀ i, i < n → matchesAt s p i = false) → lastMatchBelow s p n = -1 := by
  intro n
  induction n with
  | zero => intro _; rfl
  | succ m ih =>
      intro h
      simp only [lastMatchBelow, h m (Nat.lt_succ_self m), if_false, Bool.false_eq_true]
      exact ih fun i hi => h i (Nat.lt_succ_of_lt hi)

lemma lastMatchBelow_none_of_eq (s : PushrodWindow) (p : Point) :
    ∀ n, lastMatchBelow s p n = -1 → ∀ i, i < n → matchesAt s p i = false := by
  intro n
  induction n with
  | zero => intro _ i hi; omega
  | succ m ih =>
      intro h i hi
      cases hm : matchesAt s p m with
      | true =>
          exfalso
          simp only [lastMatchBelow, hm, if_true] at h
          omega
      | false =>
          simp only [lastMatchBelow, hm, Bool.false_eq_true, if_false] at h
          rcases Nat.lt_succ_iff_lt_or_eq.mp hi with hlt | heq
          · exact ih h i hlt
          · rw [heq]; exact hm

lemma lastMatchBelow_of_last (s : PushrodWindow) (p : Point) (i : Nat)
    (hm : matchesAt s p i = true) :
    ∀ n, i < n → (∀ j, i < j → j < n → matchesAt s p j = false) →
      lastMatchBelow s p n = (i : Int) := by
  intro n
  induction n with
  | zero => intro h; omega
  | succ m ih =>
      intro hin habove
      rcases Nat.lt_succ_iff_lt_or_eq.mp hin with hlt | heq
      · have hfalse : matchesAt s p m = false :=
          habove m hlt (Nat.lt_succ_self m)
        simp only [lastMatchBelow, hfalse, Bool.false_eq_true, if_false]
        exact ih hlt fun j hj hjm => habove j hj (Nat.lt_succ_of_lt hjm)
      · subst heq
        simp [lastMatchBelow, hm]

lemma lt_length_of_matchesAt (s : PushrodWindow) (p : Point) (i : Nat)
    (h : matchesAt s p i = true) : i < s.widgets.length := by
  by_contra hge
  rw [matchesAt_of_le_length s p i (Nat.le_of_not_lt hge)] at h
  exact Bool.false_ne_true h

/-- Claim C1: for every store state and point, `get_widget_id_for_point`
scans all containers in ascending index order (id 0 included), a
container matching when both coordinates lie within the closed bounds
given by its origin and size; the result is the index of the last
matching container and -1 when none matches; in particular, when an
earlier container iA and a later container iB both contain the point
and nothing after iB matches, the later id iB is returned. -/
theorem claim_C1 (s : PushrodWindow) (p : Point) :
    get_widget_id_for_point s p = lastMatchingIndex s p
    ∧ ((∀ i, matchesAt s p i = false) → get_widget_id_for_point s p = -1)
    ∧ (get_widget_id_for_point s p = -1 → ∀ i, matchesAt s p i = false)
    ∧ (∀ i : Nat, matchesAt s p i = true →
        (∀ j, i < j → matchesAt s p j = false) → get_widget_id_for_point s p = (i : Int))
    ∧ (∀ iA iB : Nat, iA < iB → matchesAt s p iA = true → matchesAt s p iB = true →
        (∀ j, iB < j → matchesAt s p j = false) → get_widget_id_for_point s p = (iB : Int)) := by
  refine ⟨get_widget_id_for_point_eq_lastMatchingIndex s p, ?_, ?_, ?_, ?_⟩
  · intro h
    rw [get_widget_id_for_point_eq_lastMatchingIndex]
    exact lastMatchBelow_of_none s p s.widgets.length fun i _ => h i
  · intro h i
    rcases Nat.lt_or_ge i s.widgets.length with hlt | hge
    · rw [get_widget_id_for_point_eq_lastMatchingIndex] at h
      exact lastMatchBelow_none_of_eq s p s.widgets.length h i hlt
    · exact matchesAt_of_le_length s p i hge
  · intro i hi habove
    rw [get_widget_id_for_point_eq_lastMatchingIndex]
    exact lastMatchBelow_of_last s p i hi s.widgets.length
      (lt_length_of_matchesAt s p i hi) fun j hj _ => habove j hj
  · intro iA iB _ _ hiB habove
    rw [get_widget_id_for_point_eq_lastMatchingIndex]
    exact lastMatchBelow_of_last s p iB hiB s.widgets.length
      (lt_length_of_matchesAt s p iB hiB) fun j hj _ => habove j hj

/-- Witness for C1: in the scenario store the base widget (index 0)
and the widget at index 2 both contain (50, 50), nothing after index 2
matches, and the hit test indeed returns the later id 2. -/
theorem claim_C1_witness :
    get_widget_id_for_point c4_store { x := 50, y := 50 } = 2 :=
  (claim_C1 c4_store { x := 50, y := 50 }).2.2.2.2 0 2 (by decide) (by decide) (by decide)
    (fun j hj => matchesAt_of_le_length c4_store { x := 50, y := 50 } j (by
      have h3 : c4_store.widgets.length = 3 := by decide
      omega))

lemma processMouseCursor_trace (st : LoopState) (p : Point) :
    (processMouseCursor st p).2 =
      if p.x ≠ st.previous_mouse_position.x ∨ p.y ≠ st.previous_mouse_position.y then
        (if get_widget_id_for_point st.store p ≠ -1 then
           [Callback.mouseMoved (get_widget_id_for_point st.store p) p] else [])
        ++ (if get_widget_id_for_point st.store p ≠ st.last_widget_id then
              (if st.last_widget_id ≠ -1 then
                 [Callback.mouseExited st.last_widget_id] else [])
              ++ (if get_widget_id_for_point st.store p ≠ -1 then
                    [Callback.mouseEntered (get_widget_id_for_point st.store p)] else [])
            else [])
      else [] := by
  simp only [processMouseCursor, mouse_moved_for_id, mouse_exited_for_id, mouse_entered_for_id]
  split_ifs <;> simp_all

lemma tickScroll_mem (st : LoopState) (e : Event) (c : Callback)
    (h : c ∈ (tickScroll st e).2) : ∃ id q, c = Callback.mouseScrolled id q := by
  unfold tickScroll processMouseScroll mouse_scrolled_for_id at h
  rcases hms : e.mouse_scroll with _ | q <;> rw [hms] at h
  · simp at h
  · by_cases hl : st.last_widget_id ≠ -1
    · simp only [if_pos hl] at h
      refine ⟨st.last_widget_id, q, ?_⟩
      simpa using h
    · simp [hl] at h

lemma tickScroll_countP (st : LoopState) (e : Event) (f : Callback → Bool)
    (hf : ∀ id q, f (Callback.mouseScrolled id q) = false) :
    (tickScroll st e).2.countP f = 0 := by
  unfold tickScroll processMouseScroll mouse_scrolled_for_id
  rcases e.mouse_scroll with _ | q
  · rfl
  · by_cases hl : st.last_widget_id ≠ -1 <;> simp [hl, List.countP_cons, hf]

lemma tickScroll_filter (st : LoopState) (e : Event) (f : Callback → Bool)
    (hf : ∀ id q, f (Callback.mouseScrolled id q) = false) :
    (tickScroll st e).2.filter f = [] := by
  unfold tickScroll processMouseScroll mouse_scrolled_for_id
  rcases e.mouse_scroll with _ | q
  · rfl
  · by_cases hl : st.last_widget_id ≠ -1 <;> simp [hl, hf]

lemma tick_trace (st : LoopState) (e : Event) (p : Point)
    (hc : e.mouse_cursor = some p) :
    (tick st e).2
      = (processMouseCursor st p).2 ++ (tickScroll (processMouseCursor st p).1 e).2 := by
  simp [tick, tickCursor, hc]

/-- Claim C2: for a tick processing a cursor-move event, a point equal
to `previous_mouse_position` dispatches no moved, entered or exited
callback; otherwise, on an id transition, at most one exit (for the old
id, only when not -1) precedes at most one enter (for the new id, only
when not -1); entered and exited are never dispatched with id -1 and at
most one of each is dispatched per tick. -/
theorem claim_C2 (st : LoopState) (e : Event) (p : Point)
    (hc : e.mouse_cursor = some p) :
    ((p.x = st.previous_mouse_position.x ∧ p.y = st.previous_mouse_position.y) →
        (tick st e).2.countP isMoved = 0
        ∧ (tick st e).2.countP isEntered = 0
        ∧ (tick st e).2.countP isExited = 0)
    ∧ (tick st e).2.countP isEntered ≤ 1
    ∧ (tick st e).2.countP isExited ≤ 1
    ∧ (∀ id, Callback.mouseEntered id ∈ (tick st e).2 →
        id = get_widget_id_for_point st.store p ∧ id ≠ -1
          ∧ get_widget_id_for_point st.store p ≠ st.last_widget_id)
    ∧ (∀ id, Callback.mouseExited id ∈ (tick st e).2 →
        id = st.last_widget_id ∧ id ≠ -1
          ∧ get_widget_id_for_point st.store p ≠ st.last_widget_id)
    ∧ ((p.x ≠ st.previous_mouse_position.x ∨ p.y ≠ st.previous_mouse_position.y) →
        get_widget_id_for_point st.store p ≠ st.last_widget_id →
        (st.last_widget_id ≠ -1 → Callback.mouseExited st.last_widget_id ∈ (tick st e).2)
        ∧ (get_widget_id_for_point st.store p ≠ -1 →
            Callback.mouseEntered (get_widget_id_for_point st.store p) ∈ (tick st e).2))
    ∧ (tick st e).2.filter isEnterExit =
        (if p.x ≠ st.previous_mouse_position.x ∨ p.y ≠ st.previous_mouse_position.y then
          if get_widget_id_for_point st.store p ≠ st.last_widget_id then
            (if st.last_widget_id ≠ -1 then [Callback.mouseExited st.last_widget_id] else [])
            ++ (if get_widget_id_for_point st.store p ≠ -1 then
                  [Callback.mouseEntered (get_widget_id_for_point st.store p)] else [])
          else []
        else []) := by
  have htr := tick_trace st e p hc
  refine ⟨?_, ?_, ?_, ?_, ?_, ?_, ?_⟩
  · rintro ⟨hx, hy⟩
    have h1 : ¬(p.x ≠ st.previous_mouse_position.x ∨ p.y ≠ st.previous_mouse_position.y) := by
      push_neg
      exact ⟨hx, hy⟩
    rw [htr, processMouseCursor_trace, if_neg h1]
    refine ⟨?_, ?_, ?_⟩ <;>
      simpa using tickScroll_countP (processMouseCursor st p).1 e _ (fun id q => rfl)
  · rw [htr, List.countP_append,
      tickScroll_countP (processMouseCursor st p).1 e _ (fun id q => rfl),
      processMouseCursor_trace]
    split_ifs <;> simp [isEntered, List.countP_append, List.countP_cons]
  · rw [htr, List.countP_append,
      tickScroll_countP (processMouseCursor st p).1 e _ (fun id q => rfl),
      processMouseCursor_trace]
    split_ifs <;> simp [isExited, List.countP_append, List.countP_cons]
  · intro id hmem
    rw [htr] at hmem
    rcases List.mem_append.mp hmem with hm1 | hm2
    · rw [processMouseCursor_trace] at hm1
      split_ifs at hm1 <;> simp_all
    · obtain ⟨id0, q0, hcq⟩ := tickScroll_mem _ _ _ hm2
      simp at hcq
  · intro id hmem
    rw [htr] at hmem
    rcases List.mem_append.mp hmem with hm1 | hm2
    · rw [processMouseCursor_trace] at hm1
      split_ifs at hm1 <;> simp_all
    · obtain ⟨id0, q0, hcq⟩ := tickScroll_mem _ _ _ hm2
      simp at hcq
  · intro hmv hne
    constructor
    · intro h3
      rw [htr, processMouseCursor_trace]
      simp [hmv, hne, h3]
    · intro h4
      rw [htr, processMouseCursor_trace]
      simp [hmv, hne, h4]
  · rw [htr, List.filter_append,
      tickScroll_filter (processMouseCursor st p).1 e _ (fun id q => rfl),
      List.append_nil, processMouseCursor_trace]
    split_ifs <;> simp [isEnterExit, isExited, isEntered]

lemma tickCursor_no_scroll (st : LoopState) (e : Event) (id : Int) (p2 : Point) :
    Callback.mouseScrolled id p2 ∉ (tickCursor st e).2 := by
  unfold tickCursor
  rcases hmc : e.mouse_cursor with _ | p
  · simp
  · rw [processMouseCursor_trace]
    split_ifs <;> simp

lemma tickScroll_of_scroll (st : LoopState) (e : Event) (q : Point)
    (hs : e.mouse_scroll = some q) :
    (tickScroll st e).2 =
      if st.last_widget_id ≠ -1 then [Callback.mouseScrolled st.last_widget_id q]
      else [] := by
  unfold tickScroll processMouseScroll mouse_scrolled_for_id
  rw [hs]
  split_ifs <;> rfl

/-- Claim C3: for a tick processing a scroll event, a
`mouse_scrolled_for_id` dispatch happens exactly when the loop variable
`last_widget_id` (as left by the cursor phase of the same iteration) is
not -1, and its target is that `last_widget_id` with the scroll point;
no hit test on the scroll point is involved. -/
theorem claim_C3 (st : LoopState) (e : Event) (q : Point)
    (hs : e.mouse_scroll = some q) :
    ((tickCursor st e).1.last_widget_id ≠ -1 →
      (tick st e).2 = (tickCursor st e).2
        ++ [Callback.mouseScrolled (tickCursor st e).1.last_widget_id q])
    ∧ ((tickCursor st e).1.last_widget_id = -1 → (tick st e).2 = (tickCursor st e).2)
    ∧ (∀ id p2, Callback.mouseScrolled id p2 ∈ (tick st e).2 →
        id = (tickCursor st e).1.last_widget_id ∧ p2 = q
          ∧ (tickCursor st e).1.last_widget_id ≠ -1) := by
  have htr : (tick st e).2
      = (tickCursor st e).2 ++ (tickScroll (tickCursor st e).1 e).2 := rfl
  refine ⟨?_, ?_, ?_⟩
  · intro hl
    rw [htr, tickScroll_of_scroll _ _ _ hs, if_pos hl]
  · intro hl
    rw [htr, tickScroll_of_scroll _ _ _ hs, if_neg (by simp [hl]), List.append_nil]
  · intro id p2 hmem
    rw [htr] at hmem
    rcases List.mem_append.mp hmem with hm1 | hm2
    · exact absurd hm1 (tickCursor_no_scroll st e id p2)
    · rw [tickScroll_of_scroll _ _ _ hs] at hm2
      by_cases hl : (tickCursor st e).1.last_widget_id ≠ -1
      · rw [if_pos hl] at hm2
        simp only [List.mem_singleton, Callback.mouseScrolled.injEq] at hm2
        exact ⟨hm2.1, hm2.2, hl⟩
      · rw [if_neg hl] at hm2
        simp at hm2

/-- Witness for C3: with widget 2 last hovered, a pure scroll tick
dispatches exactly one scrolled callback, to id 2. -/
theorem claim_C3_witness :
    (tick c3_state c3_event).2
      = (tickCursor c3_state c3_event).2
        ++ [Callback.mouseScrolled (tickCursor c3_state c3_event).1.last_widget_id
              { x := 1, y := 1 }] :=
  (claim_C3 c3_state c3_event { x := 1, y := 1 } rfl).1 (by decide)

/-- Counterexample to C4 as stated: in the scenario store the base
widget (id 0, sized 800 by 600 at the origin by the constructor)
contains (500, 500), so the hit test returns 0 rather than the claimed
-1, and after the move `last_widget_id` is 0, not -1. -/
theorem claim_C4_counterexample :
    get_widget_id_for_point c4_store { x := 500, y := 500 } = 0
    ∧ ¬(get_widget_id_for_point c4_store { x := 500, y := 500 } = -1)
    ∧ c4_state2.last_widget_id = 0
    ∧ ¬(c4_state2.last_widget_id = -1) := by
  decide

/-- Claim C4 as amended: moving to (50, 50) dispatches moved(2) and
entered(2); moving to (500, 500) hit-tests to 0 (the constructor base
widget), dispatching moved(0), exited(2) and entered(0) and leaving
`last_widget_id = 0`; the subsequent scroll dispatches a single
scrolled callback to widget 0 and in particular none to widget 2. -/
theorem claim_C4 :
    (add_widget (add_widget PushrodWindow.new c4_w1).2 c4_w2).1 = 2
    ∧ get_widget_id_for_point c4_store { x := 50, y := 50 } = 2
    ∧ (tick c4_state0 c4_move1).2
        = [Callback.mouseMoved 2 { x := 50, y := 50 }, Callback.mouseEntered 2]
    ∧ c4_state1.last_widget_id = 2
    ∧ get_widget_id_for_point c4_store { x := 500, y := 500 } = 0
    ∧ (tick c4_state1 c4_move2).2
        = [Callback.mouseMoved 0 { x := 500, y := 500 }, Callback.mouseExited 2,
           Callback.mouseEntered 0]
    ∧ c4_state2.last_widget_id = 0
    ∧ (tick c4_state2 c4_scroll).2 = [Callback.mouseScrolled 0 { x := 3, y := 7 }]
    ∧ Callback.mouseScrolled 2 { x := 3, y := 7 } ∉ (tick c4_state2 c4_scroll).2 := by
  decide

/-- Claim C5: `add_widget` returns the pre-insertion length as the new
id and appends a container with `parent_id = 0`; `add_widget_to_parent`
stores any supplied `parent_id` verbatim with no validation; both are
total, consecutive insertions return strictly increasing ids, and when
every stored id is below the length the new id collides with none of
them. -/
theorem claim_C5 (s : PushrodWindow) (w w2 : Widget) (pid : Int) :
    (add_widget s w).1 = (s.widgets.length : Int)
    ∧ (add_widget s w).2.widgets
        = s.widgets
          ++ [{ widget := w, widget_id := (s.widgets.length : Int), parent_id := 0 }]
    ∧ (add_widget_to_parent s w pid).1 = (s.widgets.length : Int)
    ∧ (add_widget_to_parent s w pid).2.widgets
        = s.widgets
          ++ [{ widget := w, widget_id := (s.widgets.length : Int), parent_id := pid }]
    ∧ (add_widget (add_widget s w).2 w2).1 = (add_widget s w).1 + 1
    ∧ ((∀ c ∈ s.widgets, c.widget_id < (s.widgets.length : Int)) →
        ∀ c ∈ s.widgets, c.widget_id ≠ (add_widget s w).1) := by
  refine ⟨rfl, rfl, rfl, rfl, ?_, ?_⟩
  · simp [add_widget]
  · intro h c hc
    have := h c hc
    simp only [add_widget]
    omega

/-- Witness for C5: in the constructor store every stored id is below
the length, so the id assigned by the next insertion is fresh. -/
theorem claim_C5_witness :
    PushrodWindow.new.widgets.all
      (fun c => decide (c.widget_id ≠ (add_widget PushrodWindow.new c4_w1).1)) = true :=
  List.all_eq_true.mpr fun c hc =>
    decide_eq_true
      ((claim_C5 PushrodWindow.new c4_w1 c4_w2 3).2.2.2.2.2 (by decide) c hc)

/-- Claim C6: `get_parent_of` returns 0 for every id at most 0
regardless of stored data, and the stored `parent_id` for every
strictly positive in-range id. -/
theorem claim_C6 (s : PushrodWindow) (id : Int) :
    (id ≤ 0 → get_parent_of s id = some 0)
    ∧ (0 < id → ∀ c, s.widgets.get? id.toNat = some c →
        get_parent_of s id = some c.parent_id) := by
  constructor
  · intro h
    simp [get_parent_of, h]
  · intro h c hc
    unfold get_parent_of
    rw [if_neg (by omega), hc]
    rfl

/-- Witness for C6: a negative id resolves to parent 0, and the
in-range id 2 of the scenario store resolves to its stored parent 0. -/
theorem claim_C6_witness :
    get_parent_of c4_store (-5) = some 0 ∧ get_parent_of c4_store 2 = some 0 :=
  ⟨(claim_C6 c4_store (-5)).1 (by decide),
   (claim_C6 c4_store 2).2 (by decide)
     { widget := c4_w2, widget_id := 2, parent_id := 0 } (by decide)⟩

lemma get_append_singleton {α : Type} (l : List α) (a : α) (i : Nat)
    (hi : i < (l ++ [a]).length) :
    (l ++ [a]).get ⟨i, hi⟩ = if h : i < l.length then l.get ⟨i, h⟩ else a := by
  split_ifs with h
  · exact List.getElem_append_left h
  · have hil : i = l.length := by simp at hi; omega
    exact List.getElem_concat_length l a i hil hi

/-- Claim C7: `get_children_of` returns exactly the ids of the
containers whose stored `parent_id` equals the argument, as a
subsequence of the store order; under the id-equals-index invariant the
returned ids are strictly ascending. -/
theorem claim_C7 (s : PushrodWindow) (pid : Int) :
    (∀ id, id ∈ get_children_of s pid
        ↔ ∃ c, c ∈ s.widgets ∧ c.parent_id = pid ∧ c.widget_id = id)
    ∧ (get_children_of s pid).Sublist (s.widgets.map fun c => c.widget_id)
    ∧ ((∀ i, (hi : i < s.widgets.length) → (s.widgets.get ⟨i, hi⟩).widget_id = (i : Int)) →
        List.Pairwise (fun a b => a < b) (get_children_of s pid)) := by
  refine ⟨?_, ?_, ?_⟩
  · intro id
    simp only [get_children_of, List.mem_map, List.mem_filter, decide_eq_true_eq]
    constructor
    · rintro ⟨c, ⟨hc, hp⟩, hid⟩
      exact ⟨c, hc, hp, hid⟩
    · rintro ⟨c, hc, hp, hid⟩
      exact ⟨c, ⟨hc, hp⟩, hid⟩
  · exact (List.filter_sublist s.widgets).map fun c => c.widget_id
  · intro hinv
    have hp : List.Pairwise (fun a b : WidgetContainer => a.widget_id < b.widget_id)
        s.widgets := by
      rw [List.pairwise_iff_get]
      intro i j hij
      have h1 : (s.widgets.get i).widget_id = (i.1 : Int) := hinv i.1 i.2
      have h2 : (s.widgets.get j).widget_id = (j.1 : Int) := hinv j.1 j.2
      rw [h1, h2]
      exact_mod_cast hij
    exact List.pairwise_map.mpr (List.Pairwise.filter _ hp)

/-- Witness for C7: in the eight-widget store the children of parent 3
are [5, 7], in strictly ascending order. -/
theorem claim_C7_witness :
    List.Pairwise (fun a b => a < b) (get_children_of c7_store 3)
    ∧ get_children_of c7_store 3 = [5, 7] :=
  ⟨(claim_C7 c7_store 3).2.2 (by decide), by decide⟩

lemma invalidate_all_widgets_all (s : PushrodWindow) :
    ∀ c ∈ (invalidate_all_widgets s).widgets, c.widget.invalidated = true := by
  intro c hc
  simp only [invalidate_all_widgets, List.mem_map] at hc
  obtain ⟨c0, _, hc0⟩ := hc
  rw [← hc0]
  rfl

lemma processMouseCursor_store (st : LoopState) (p : Point) :
    (processMouseCursor st p).1.store = st.store := by
  simp only [processMouseCursor]
  split_ifs <;> rfl

lemma processMouseScroll_store (st : LoopState) (p : Point) :
    (processMouseScroll st p).1.store = st.store := by
  simp only [processMouseScroll]
  split_ifs <;> rfl

lemma tickCursor_store (st : LoopState) (e : Event) :
    (tickCursor st e).1.store = st.store := by
  unfold tickCursor
  rcases hmc : e.mouse_cursor with _ | p
  · rfl
  · exact processMouseCursor_store st p

lemma tickScroll_store (st : LoopState) (e : Event) :
    (tickScroll st e).1.store = st.store := by
  unfold tickScroll
  rcases hms : e.mouse_scroll with _ | p
  · rfl
  · exact processMouseScroll_store st p

lemma storeAtDraw_eq (st : LoopState) (e : Event) :
    storeAtDraw st e
      = if e.resize.isSome then invalidate_all_widgets st.store else st.store := by
  unfold storeAtDraw tickResize
  split_ifs with h <;> simp [tickScroll_store, tickCursor_store]

lemma tick_store (st : LoopState) (e : Event) :
    (tick st e).1.store
      = if e.render then invalidate_all_widgets (draw_pass (storeAtDraw st e))
        else storeAtDraw st e := by
  unfold tick tickRender storeAtDraw
  split_ifs <;> rfl

/-- Claim C8: `invalidate_all_widgets` sets the dirty flag of every
stored widget; the run loop applies it on every resize event and again
after drawing on every render tick, so a resize tick followed by a
render tick leaves every widget dirty at draw time, from any state. -/
theorem claim_C8 :
    (∀ s : PushrodWindow, ∀ c ∈ (invalidate_all_widgets s).widgets,
        c.widget.invalidated = true)
    ∧ (∀ (st : LoopState) (e : Event), e.resize.isSome = true →
        ∀ c ∈ (storeAtDraw st e).widgets, c.widget.invalidated = true)
    ∧ (∀ (st : LoopState) (e1 e2 : Event), e1.resize.isSome = true →
        e1.render = false →
        ∀ c ∈ (storeAtDraw (tick st e1).1 e2).widgets, c.widget.invalidated = true)
    ∧ (∀ (st : LoopState) (e : Event), e.render = true →
        ∀ c ∈ (tick st e).1.store.widgets, c.widget.invalidated = true) := by
  refine ⟨invalidate_all_widgets_all, ?_, ?_, ?_⟩
  · intro st e hr c hc
    rw [storeAtDraw_eq, if_pos hr] at hc
    exact invalidate_all_widgets_all st.store c hc
  · intro st e1 e2 hr hnr c hc
    have hts : (tick st e1).1.store = invalidate_all_widgets st.store := by
      rw [tick_store, hnr]
      simp only [Bool.false_eq_true, if_false]
      rw [storeAtDraw_eq, if_pos hr]
    rw [storeAtDraw_eq, hts] at hc
    by_cases h2 : e2.resize.isSome = true
    · rw [if_pos h2] at hc
      exact invalidate_all_widgets_all _ c hc
    · rw [if_neg h2] at hc
      exact invalidate_all_widgets_all _ c hc
  · intro st e hr c hc
    rw [tick_store, hr, if_pos rfl] at hc
    exact invalidate_all_widgets_all _ c hc

/-- Witness for C8: from the scenario store, a resize tick then a
render tick leave every widget dirty at draw time. -/
theorem claim_C8_witness :
    ((storeAtDraw (tick (LoopState.initial c4_store) c8_resize_event).1
        c8_render_event).widgets.all fun c => c.widget.invalidated) = true :=
  List.all_eq_true.mpr fun c hc =>
    claim_C8.2.2.1 (LoopState.initial c4_store) c8_resize_event c8_render_event
      rfl rfl c hc

lemma ids_step (s : PushrodWindow) (nc : WidgetContainer)
    (hid : nc.widget_id = (s.widgets.length : Int))
    (ihs : ∀ i, (hi : i < s.widgets.length) → (s.widgets.get ⟨i, hi⟩).widget_id = (i : Int)) :
    ∀ i, (hi : i < (s.widgets ++ [nc]).length) →
      ((s.widgets ++ [nc]).get ⟨i, hi⟩).widget_id = (i : Int) := by
  intro i hi
  rw [get_append_singleton]
  split_ifs with h
  · exact ihs i h
  · have hil : i = s.widgets.length := by simp at hi; omega
    rw [hil, hid]

lemma reachable_ids {s : PushrodWindow} (h : Reachable s) :
    ∀ i, (hi : i < s.widgets.length) → (s.widgets.get ⟨i, hi⟩).widget_id = (i : Int) := by
  induction h with
  | base =>
      intro i hi
      have h1 : i = 0 := by
        have h2 := hi
        simp [PushrodWindow.new] at h2
        omega
      subst h1
      rfl
  | add s w hs ih => exact ids_step s _ rfl ih
  | addToParent s w pid hs ih => exact ids_step s _ rfl ih

lemma reachable_head {s : PushrodWindow} (h : Reachable s) :
    ∃ rest, s.widgets
      = { widget := Widget.set_size BaseWidget.new 800 600,
          widget_id := 0, parent_id := 0 } :: rest := by
  induction h with
  | base => exact ⟨[], rfl⟩
  | add s w hs ih =>
      obtain ⟨rest, hr⟩ := ih
      exact ⟨rest ++ [{ widget := w, widget_id := (s.widgets.length : Int), parent_id := 0 }], by simp [add_widget, hr]⟩
  | addToParent s w pid hs ih =>
      obtain ⟨rest, hr⟩ := ih
      exact ⟨rest ++ [{ widget := w, widget_id := (s.widgets.length : Int), parent_id := pid }], by simp [add_widget_to_parent, hr]⟩

/-- Claim C9: in every store reachable through the constructor and the
two insertion operations, the container at index i carries widget id i;
hence the store is never empty, index 0 holds the constructor root with
parent id 0, and both insertion operations return an id of at least 1. -/
theorem claim_C9 (s : PushrodWindow) (h : Reachable s) :
    (∀ i, (hi : i < s.widgets.length) → (s.widgets.get ⟨i, hi⟩).widget_id = (i : Int))
    ∧ 0 < s.widgets.length
    ∧ (∃ rest, s.widgets
        = { widget := Widget.set_size BaseWidget.new 800 600,
            widget_id := 0, parent_id := 0 } :: rest)
    ∧ (∀ w, 1 ≤ (add_widget s w).1)
    ∧ (∀ w pid, 1 ≤ (add_widget_to_parent s w pid).1) := by
  have hhead := reachable_head h
  have hlen : 0 < s.widgets.length := by
    obtain ⟨rest, hr⟩ := hhead
    simp [hr]
  refine ⟨reachable_ids h, hlen, hhead, ?_, ?_⟩
  · intro w
    simp only [add_widget]
    omega
  · intro w pid
    simp only [add_widget_to_parent]
    omega

/-- Witness for C9: the constructor store is reachable, nonempty, and
assigns id 1 to the next insertion. -/
theorem claim_C9_witness :
    0 < PushrodWindow.new.widgets.length
    ∧ 1 ≤ (add_widget PushrodWindow.new c4_w1).1 :=
  ⟨(claim_C9 PushrodWindow.new Reachable.base).2.1,
   (claim_C9 PushrodWindow.new Reachable.base).2.2.2.1 c4_w1⟩

/-- Claim C10: in every reachable store the root container at index 0
has parent id 0, so the root lists itself among the children of 0. -/
theorem claim_C10 (s : PushrodWindow) (h : Reachable s) :
    (0 : Int) ∈ get_children_of s 0 := by
  obtain ⟨rest, hr⟩ := reachable_head h
  unfold get_children_of
  rw [hr]
  simp

/-- Witness for C10: in the constructor store itself, id 0 appears
among the children of parent 0. -/
theorem claim_C10_witness : (0 : Int) ∈ get_children_of PushrodWindow.new 0 :=
  claim_C10 PushrodWindow.new Reachable.base

/-- Witness for C2: the first scenario move is a genuine cursor change
onto widget 2, and the tick dispatches the entered callback for id 2. -/
theorem claim_C2_witness :
    Callback.mouseEntered 2 ∈ (tick c4_state0 c4_move1).2 :=
  ((claim_C2 c4_state0 c4_move1 { x := 50, y := 50 } rfl).2.2.2.2.2.1
    (by decide) (by decide)).2 (by decide)
